import Mathlib

/-
Verification development for the Zance chat backend: a shallow embedding of the
real-time delivery and chunked-response scheduling subsystem (app/tasks.py,
app/sync_mongo.py, app/routes/chat.py, app/services/conversation_service.py,
app/repositories/conversation_repository.py, app/services/ai/ai_service.py,
app/services/ai/ai_group_service.py), together with theorems settling the
spec claims about it.
-/

namespace Zance

/-- History entry: an element of a conversation's `history` list.
Mirrors the dicts the code builds: a `role`, an optional `sender`, a `content`. -/
structure Entry where
  role : String
  sender : Option String
  content : String
deriving DecidableEq, Repr

/-- Conversation document as stored in the `conversations` collection: the
fields the core reads and writes. -/
structure Conv where
  participants : List String
  conversation_type : String
  history : List Entry
  interrupted : Bool
deriving DecidableEq, Repr

/-- Chunk-plan entry as consumed by deliver_chunks_task: `chunk_info` dicts with
`content` (default the empty string) and `delay_seconds` (default 0) folded in. -/
structure Chunk where
  content : String
  delay_seconds : Int
deriving DecidableEq, Repr

/-- Assistant entry appended by the schedulers and AI services:
the dict with role assistant and the given content, no sender key. -/
def assistantEntry (content : String) : Entry :=
  { role := "assistant", sender := none, content := content }

/-- Errors the embedded Python code can raise. -/
inductive PyError
  | typeError
  | httpBadRequest
  | httpNotFound
  | httpServerError
  | valueError
  | nameError
  | genericException
deriving DecidableEq, Repr

/-- Characters accepted inside a BSON ObjectId hex string. -/
def isHexChar (c : Char) : Bool :=
  c.isDigit || "abcdefABCDEF".toList.contains c

/-- Validity of a conversation id as an ObjectId: 24 hex characters.
Both mongo adapters construct `ObjectId(conversation_id)` and treat an invalid
id as a failure. -/
def isValidObjectId (s : String) : Bool :=
  s.length == 24 && s.toList.all isHexChar

/-- Characters Python's str.strip() removes by default. -/
def isPyWhitespace (c : Char) : Bool :=
  c.toNat = 32 || c.toNat = 9 || c.toNat = 10 || c.toNat = 13 ||
    c.toNat = 11 || c.toNat = 12

/-- Python str.strip(): removes leading and trailing whitespace. -/
def pyStrip (s : String) : String :=
  String.mk (((s.toList.dropWhile isPyWhitespace).reverse.dropWhile isPyWhitespace).reverse)

/-- The `conversations` collection, keyed by the string form of `_id`. -/
abbrev Db : Type := List (String × Conv)

/-- Lookup of a conversation document by id (`find_one` on `_id`). -/
def findConv (db : Db) (cid : String) : Option Conv :=
  (List.find? (fun p => p.1 == cid) db).map (fun p => p.2)

/-- Replacement of the document stored under `cid` (the effect of a successful
`update_one` with a `$set`). -/
def setConv (db : Db) (cid : String) (c : Conv) : Db :=
  db.map (fun p => if p.1 == cid then (cid, c) else p)

/-- Function get_sync_conversation_by_id of app/sync_mongo.py: returns None for
an invalid ObjectId, otherwise the fetched document. -/
def get_sync_conversation_by_id (db : Db) (conversation_id : String) : Option Conv :=
  if isValidObjectId conversation_id then findConv db conversation_id else none

/-- Function update_sync_conversation_history of app/sync_mongo.py: `$set`s the
history and, when the optional `interrupted` argument is given, the interrupted
flag; returns the refetched document when `modified_count == 1` and None
otherwise (invalid id, missing document, or an update that changes nothing). -/
def update_sync_conversation_history (db : Db) (conversation_id : String)
    (history : List Entry) (interrupted : Option Bool) : Db × Option Conv :=
  if isValidObjectId conversation_id then
    match findConv db conversation_id with
    | none => (db, none)
    | some c =>
      let c' : Conv := { c with
        history := history
        interrupted := interrupted.getD c.interrupted }
      if c' = c then (db, none)
      else
        let db' := setConv db conversation_id c'
        (db', findConv db' conversation_id)
  else (db, none)

/-- Externally visible effects of the embedded handlers other than writes to
the conversations collection: text sent back on the websocket, inserts into the
messages collection, redis publish_message calls, and asynchronously spawned
tasks (asyncio.create_task of automate_group_ai_response, or a celery
invocation of deliver_chunks_task). -/
inductive Effect
  | sendText (text : String)
  | saveMessage (conversation_id : String) (sender : String) (content : String)
  | publish (channel : String) (sender : String) (content : String)
  | spawnGroupAiResponse (conversation_id : String)
  | spawnDeliverChunks (chat_id : String)
deriving DecidableEq, Repr

/-- Function deliver_chunks_task of app/tasks.py, the Response Scheduler: for
each chunk it sleeps (time.sleep raises ValueError on a negative delay),
re-fetches the conversation, breaks when it is missing or interrupted,
otherwise appends an assistant entry to the fetched history and writes it back
via update_sync_conversation_history (no interrupted argument), breaking when
that write reports no modification. The effect list records redis
publish_message invocations; the body of the task contains none. -/
def deliver_chunks_task (db : Db) (chat_id : String) :
    List Chunk → Db × List Effect × Except PyError Unit
  | [] => (db, [], Except.ok ())
  | chunk_info :: rest =>
    if chunk_info.delay_seconds < 0 then
      (db, [], Except.error PyError.valueError)
    else
      match get_sync_conversation_by_id db chat_id with
      | none => (db, [], Except.ok ())
      | some conversation_doc =>
        if conversation_doc.interrupted then (db, [], Except.ok ())
        else
          match update_sync_conversation_history db chat_id
              (conversation_doc.history ++ [assistantEntry chunk_info.content]) none with
          | (db', none) => (db', [], Except.ok ())
          | (db', some _) => deliver_chunks_task db' chat_id rest

/-- Function get_conversation_by_id of app/repositories/conversation_repository.py:
raises HTTP 400 on an invalid ObjectId, otherwise returns the document or None. -/
def get_conversation_by_id (db : Db) (conversation_id : String) :
    Except PyError (Option Conv) :=
  if isValidObjectId conversation_id then Except.ok (findConv db conversation_id)
  else Except.error PyError.httpBadRequest

/-- Function get_conversation of app/services/conversation_service.py: raises
HTTP 404 when the conversation is not found. -/
def get_conversation (db : Db) (conversation_id : String) : Except PyError Conv :=
  match get_conversation_by_id db conversation_id with
  | Except.error e => Except.error e
  | Except.ok none => Except.error PyError.httpNotFound
  | Except.ok (some c) => Except.ok c

/-- Function update_conversation_history_record of
app/repositories/conversation_repository.py: raises HTTP 400 on an invalid id,
`$set`s only the history field, returns the refetched document when
`modified_count` is nonzero and raises HTTP 404 otherwise. Its parameter list
is `(conversation_id, history)`: it takes no interrupted argument. -/
def update_conversation_history_record_repo (db : Db) (conversation_id : String)
    (history : List Entry) : Db × Except PyError Conv :=
  if isValidObjectId conversation_id then
    match findConv db conversation_id with
    | none => (db, Except.error PyError.httpNotFound)
    | some c =>
      let c' : Conv := { c with history := history }
      if c' = c then (db, Except.error PyError.httpNotFound)
      else
        let db' := setConv db conversation_id c'
        match findConv db' conversation_id with
        | some updated => (db', Except.ok updated)
        | none => (db', Except.error PyError.httpNotFound)
  else (db, Except.error PyError.httpBadRequest)

/-- Number of parameters of the repository-level
update_conversation_history_record: `(conversation_id, history)`, none with a
default (conversation_repository.py lines 60-62). -/
def repo_update_param_count : Nat := 2

/-- Number of positional arguments the service layer passes to the repository
function: `(conversation_id, history, interrupted)`
(conversation_service.py lines 93-95). -/
def service_update_arg_count : Nat := 3

/-- Python positional-call rule: a call supplying more positional arguments
than the callee declares parameters raises TypeError before the body runs. -/
def positionalCallAccepted (params : Nat) (args : Nat) : Bool :=
  decide (args ≤ params)

/-- Function update_conversation_history_record of
app/services/conversation_service.py: forwards
`(conversation_id, history, interrupted)` positionally to the repository
function, which declares only `(conversation_id, history)`; by the Python
positional-call rule the call raises TypeError. -/
def update_conversation_history_record (db : Db) (conversation_id : String)
    (history : List Entry) (_interrupted : Bool) : Db × Except PyError Conv :=
  if positionalCallAccepted repo_update_param_count service_update_arg_count then
    update_conversation_history_record_repo db conversation_id history
  else (db, Except.error PyError.typeError)

/-- JSON values appearing as fields of an inbound frame, restricted to the
shapes whose pydantic treatment the embedding models: strings (accepted for
the str fields) and null (rejected for a required str field). -/
inductive JsonVal
  | str (s : String)
  | null
deriving DecidableEq, Repr

/-- Parsed JSON object: field name to value. -/
abbrev JsonObj : Type := List (String × JsonVal)

/-- Result of json.loads on one inbound websocket text frame; `parsed := none`
models a frame that fails JSON parsing. -/
structure Frame where
  parsed : Option JsonObj
deriving DecidableEq, Repr

/-- Validated inbound message: the Message pydantic model of app/models.py with
its two required str fields (the timestamp default does not matter here). -/
structure Message where
  sender : String
  content : String
deriving DecidableEq, Repr

/-- Field lookup in a parsed JSON object. -/
def lookupField (o : JsonObj) (k : String) : Option JsonVal :=
  (List.find? (fun p => p.1 == k) o).map (fun p => p.2)

/-- Pydantic validation `Message(**message_data)`: requires `sender` and
`content` to be present string fields, failing otherwise. -/
def validateMessage (o : JsonObj) : Option Message :=
  match lookupField o "sender", lookupField o "content" with
  | some (JsonVal.str s), some (JsonVal.str c) => some { sender := s, content := c }
  | _, _ => none

/-- How one iteration of the websocket receive loop ends: reaching the bottom
of the loop body (or a `continue`), or an exception escaping the loop. -/
inductive StepExit
  | continueLoop
  | raised (e : PyError)
deriving DecidableEq, Repr

/-- One iteration of the receive loop of websocket_endpoint
(app/routes/chat.py lines 106-163) on an inbound frame: parse failure and
validation failure send a diagnostic and continue; otherwise the message is
saved to the messages collection, the conversation is refetched through the
service (which raises when it is gone), the user entry is appended to its
history and persisted through the service-level
update_conversation_history_record, the saved message is published to redis,
and the two group-AI trigger blocks run (the first unconditional for a group
conversation with a truthy sender, the second re-fetching the conversation and
spawning only when the working history holds no assistant entry). Returns the
effects performed, how the iteration ended, and the conversations collection
afterwards. -/
def websocket_receive_step (db : Db) (conversation_id : String) (frame : Frame) :
    List Effect × StepExit × Db :=
  match frame.parsed with
  | none =>
    ([Effect.sendText "Invalid message format. Please send JSON."],
      StepExit.continueLoop, db)
  | some message_data =>
    match validateMessage message_data with
    | none =>
      ([Effect.sendText "Error in message data"], StepExit.continueLoop, db)
    | some message_obj =>
      let eSave := Effect.saveMessage conversation_id message_obj.sender message_obj.content
      match get_conversation db conversation_id with
      | Except.error e => ([eSave], StepExit.raised e, db)
      | Except.ok conversation =>
        let history := conversation.history ++
          [{ role := "user", sender := some message_obj.sender, content := message_obj.content }]
        match update_conversation_history_record db conversation_id history false with
        | (db1, Except.error e) => ([eSave], StepExit.raised e, db1)
        | (db1, Except.ok _) =>
          let ePub := Effect.publish conversation_id message_obj.sender message_obj.content
          let trigger1 :=
            if conversation.conversation_type == "group" && message_obj.sender != "" then
              [Effect.spawnGroupAiResponse conversation_id]
            else []
          match get_conversation db1 conversation_id with
          | Except.error e => ([eSave, ePub] ++ trigger1, StepExit.raised e, db1)
          | Except.ok conv =>
            let trigger2 :=
              if conv.conversation_type == "group" && message_obj.sender != "" &&
                  !(history.any (fun m => m.role == "assistant")) then
                [Effect.spawnGroupAiResponse conversation_id]
              else []
            ([eSave, ePub] ++ trigger1 ++ trigger2, StepExit.continueLoop, db1)

/-- How the receive loop of one websocket session terminates. -/
inductive LoopResult
  | disconnected
  | errored (e : PyError)
deriving DecidableEq, Repr

/-- Python list.remove: removes the first occurrence of the element. -/
def removeFirst : List String → String → List String
  | [], _ => []
  | y :: ys, x => if y == x then ys else y :: removeFirst ys x

/-- State of one conversation's registry bucket and of the bridge task after a
session ends. -/
structure CleanupResult where
  registry : List String
  listenerCancelled : Bool
deriving DecidableEq, Repr

/-- Exit handling of websocket_endpoint (app/routes/chat.py lines 165-171): the
`except WebSocketDisconnect` clause removes the socket from local_connections,
and the `finally` clause cancels the redis listener task; any other exception
reaches only the `finally` clause, so the socket stays registered. -/
def sessionCleanup (registry : List String) (self : String) :
    LoopResult → CleanupResult
  | LoopResult.disconnected =>
    { registry := removeFirst registry self, listenerCancelled := true }
  | LoopResult.errored _ =>
    { registry := registry, listenerCancelled := true }

/-- One inbound frame processed by a registered session: when the loop
iteration raises, the handler unwinds through its exception clauses; when it
continues, the session stays registered with the listener running. -/
def sessionAfterFrame (db : Db) (conversation_id : String)
    (registry : List String) (self : String) (frame : Frame) : CleanupResult :=
  match websocket_receive_step db conversation_id frame with
  | (_, StepExit.raised e, _) => sessionCleanup registry self (LoopResult.errored e)
  | (_, StepExit.continueLoop, _) =>
    { registry := registry, listenerCancelled := false }

/-- Loop of deliver_chunks_task under a concurrent writer that may toggle only
the interrupted flag between iterations: the control flow of the task body,
with the re-fetch at iteration i returning the conversation whose history is
the last value the task wrote and whose interrupted flag is `flags i` (the
conversation stays present, and the write-back succeeds because the appended
history always differs from the stored one). Returns the history the task has
written. -/
def deliver_chunks_flags (flags : Nat → Bool) :
    List Entry → List Chunk → Nat → List Entry
  | hist, [], _ => hist
  | hist, chunk_info :: rest, i =>
    if chunk_info.delay_seconds < 0 then hist
    else if flags i then hist
    else deliver_chunks_flags flags (hist ++ [assistantEntry chunk_info.content]) rest (i + 1)

/-- AI document shape consumed by the group response logic: the fields it reads
through `.get`, each possibly absent. -/
structure AiDoc where
  name : Option String
  personality : Option String
  details : Option String
deriving DecidableEq, Repr

/-- User document shape consumed by the group response logic. -/
structure UserDoc where
  username : Option String
deriving DecidableEq, Repr

/-- Environment of one get_ai_response call: the redis cache lookup for the
computed key, and the outcome of the OpenAI completion call (none models an
API failure, some the raw content of the first choice). -/
structure AiEnv where
  cached : Option String
  llm : Option String
deriving DecidableEq, Repr

/-- Environment of one automate_group_ai_response call: the AI and user
collections consulted by get_ai_by_id and get_user_by_id, and the environment
of the inner get_ai_response call. -/
structure GroupEnv where
  ais : List (String × AiDoc)
  users : List (String × UserDoc)
  ai : AiEnv
deriving DecidableEq, Repr

/-- Lookup of get_ai_by_id in the environment. -/
def lookupAi (env : GroupEnv) (pid : String) : Option AiDoc :=
  (List.find? (fun p => p.1 == pid) env.ais).map (fun p => p.2)

/-- Lookup of get_user_by_id in the environment. -/
def lookupUser (env : GroupEnv) (pid : String) : Option UserDoc :=
  (List.find? (fun p => p.1 == pid) env.users).map (fun p => p.2)

/-- Function get_ai_response of app/services/ai/ai_service.py: rejects a prompt
that is empty after stripping, returns a cached response unchanged, and on a
cache miss calls the model, strips the reply, and itself appends the assistant
entry to the caller's conversation_history (line 67) before returning. The
result carries the reply and the (possibly extended) history. -/
def get_ai_response (env : AiEnv) (prompt : String)
    (conversation_history : List Entry) : Except PyError (String × List Entry) :=
  if pyStrip prompt == "" then Except.error PyError.valueError
  else
    match env.cached with
    | some cached_response => Except.ok (cached_response, conversation_history)
    | none =>
      match env.llm with
      | none => Except.error PyError.httpServerError
      | some raw =>
        let ai_response := pyStrip raw
        Except.ok (ai_response, conversation_history ++ [assistantEntry ai_response])

/-- Function get_participant_names of app/services/ai/ai_group_service.py, per
participant: the username when the user lookup yields a truthy one, else the AI
name when that lookup yields a truthy one, else the raw id. -/
def participantName (env : GroupEnv) (pid : String) : String :=
  let nameFromUser :=
    match lookupUser env pid with
    | some u => u.username.getD ""
    | none => ""
  let name :=
    if nameFromUser == "" then
      match lookupAi env pid with
      | some a => a.name.getD ""
      | none => ""
    else nameFromUser
  if name == "" then pid else name

/-- Replacement in place of the first system entry of the history
(ai_group_service.py lines 135-138): the new entry carries only role and
content. -/
def replaceFirstSystem : List Entry → String → List Entry
  | [], _ => []
  | m :: rest, p =>
    if m.role == "system" then { role := "system", sender := none, content := p } :: rest
    else m :: replaceFirstSystem rest p

/-- System-prompt splice of ai_group_service.py lines 131-138: insert the group
prompt at position 0 when no system entry exists, else replace the first one. -/
def spliceSystemPrompt (prompt : String) (history : List Entry) : List Entry :=
  if history.any (fun m => m.role == "system") then replaceFirstSystem history prompt
  else { role := "system", sender := none, content := prompt } :: history

/-- Last entry with role user, as found by iterating the history reversed
(ai_group_service.py lines 143-147). -/
def lastUserEntry : List Entry → Option Entry
  | [] => none
  | m :: rest =>
    match lastUserEntry rest with
    | some e => some e
    | none => if m.role == "user" then some m else none

/-- First participant that resolves in the AI collection
(ai_group_service.py lines 100-109). -/
def findAiParticipant (env : GroupEnv) (participants : List String) : Option String :=
  participants.find? (fun pid => (lookupAi env pid).isSome)

/-- Group system prompt built by automate_group_ai_response
(ai_group_service.py lines 116-129). -/
def group_prompt (env : GroupEnv) (conv : Conv) : String :=
  let names := conv.participants.map (participantName env)
  match findAiParticipant env conv.participants with
  | some ai_id =>
    let ad := (lookupAi env ai_id).getD { name := none, personality := none, details := none }
    "You are " ++ ad.name.getD "AI" ++ ", an AI participant in this group chat. " ++
      "Your personality is " ++ ad.personality.getD "friendly" ++ ". " ++
      ad.details.getD "An AI assistant." ++ " " ++
      "Participants: " ++ String.intercalate ", " names ++ ". " ++
      "Respond appropriately in character."
  | none =>
    "This is a group chat with participants: " ++ String.intercalate ", " names ++
      ". Please respond appropriately."

/-- History automate_group_ai_response holds right before calling
get_ai_response: the stored history with the system prompt spliced in. -/
def pre_call_history (env : GroupEnv) (conv : Conv) : List Entry :=
  spliceSystemPrompt (group_prompt env conv) conv.history

/-- Decidable equality of embedded call results. -/
instance {ε α : Type} [DecidableEq ε] [DecidableEq α] : DecidableEq (Except ε α) :=
  fun x y =>
    match x, y with
    | Except.ok a, Except.ok b =>
      if h : a = b then isTrue (by rw [h]) else isFalse (by intro hc; cases hc; exact h rfl)
    | Except.error a, Except.error b =>
      if h : a = b then isTrue (by rw [h]) else isFalse (by intro hc; cases hc; exact h rfl)
    | Except.ok _, Except.error _ => isFalse (by intro hc; cases hc)
    | Except.error _, Except.ok _ => isFalse (by intro hc; cases hc)

/-- Input prompt automate_group_ai_response builds for get_ai_response
(ai_group_service.py lines 154-157): includes the sender name when the last
user entry has a truthy sender. -/
def ai_input_of (env : GroupEnv) (ai_id : String) (lastMsg : Entry) : String :=
  let ad := (lookupAi env ai_id).getD { name := none, personality := none, details := none }
  let ai_name := ad.name.getD "AI"
  match lastMsg.sender with
  | some s =>
    if s != "" then
      "As " ++ ai_name ++ ", respond to this group chat message from " ++
        s ++ ": " ++ pyStrip lastMsg.content
    else
      "As " ++ ai_name ++ ", respond to this group chat message: " ++ pyStrip lastMsg.content
  | none =>
    "As " ++ ai_name ++ ", respond to this group chat message: " ++ pyStrip lastMsg.content

/-- Outcome of one automate_group_ai_response call: the history argument it
passed to the service-level update_conversation_history_record (when the call
was reached), and its result or the exception it raised. -/
structure GroupOutcome where
  persistHistory : Option (List Entry)
  result : Except PyError (Option Conv)
deriving DecidableEq, Repr

/-- Function automate_group_ai_response of app/services/ai/ai_group_service.py:
loads the conversation (the service raises when it is missing), returns None
for a non-group conversation, splices the group system prompt, extracts the
last user message (returning None when there is none or its stripped content is
empty), builds the input prompt (referencing ai_name, which is unbound when no
AI participant was found: NameError), calls get_ai_response (wrapping its
failure in a generic Exception), appends the response to the history once more,
and passes the result to the service-level update_conversation_history_record. -/
def automate_group_ai_response (db : Db) (env : GroupEnv)
    (conversation_id : String) : GroupOutcome :=
  match get_conversation db conversation_id with
  | Except.error e => { persistHistory := none, result := Except.error e }
  | Except.ok conversation =>
    if conversation.conversation_type != "group" then
      { persistHistory := none, result := Except.ok none }
    else
      let history := pre_call_history env conversation
      match lastUserEntry history with
      | none => { persistHistory := none, result := Except.ok none }
      | some lastMsg =>
        let last_message := pyStrip lastMsg.content
        if last_message == "" then { persistHistory := none, result := Except.ok none }
        else
          match findAiParticipant env conversation.participants with
          | none => { persistHistory := none, result := Except.error PyError.nameError }
          | some ai_id =>
            match get_ai_response env.ai (ai_input_of env ai_id lastMsg) history with
            | Except.error _ =>
              { persistHistory := none, result := Except.error PyError.genericException }
            | Except.ok (ai_response, h2) =>
              let h3 := h2 ++ [assistantEntry ai_response]
              match update_conversation_history_record db conversation_id h3 false with
              | (_, Except.error e) =>
                { persistHistory := some h3, result := Except.error e }
              | (_, Except.ok updated) =>
                { persistHistory := some h3, result := Except.ok (some updated) }

/-- Concrete conversation id used by witnesses: a 24-character hex string. -/
def cid0 : String := "65a1b2c3d4e5f6a7b8c9d0e1"

/-- Concrete group conversation with an empty history. -/
def conv0 : Conv :=
  { participants := ["userA", "aiX"], conversation_type := "group",
    history := [], interrupted := false }

/-- Concrete conversations collection holding conv0. -/
def db0 : Db := [(cid0, conv0)]

/-- Concrete two-chunk plan from the spec's example scenario. -/
def plan0 : List Chunk :=
  [{ content := "Hi", delay_seconds := 0 }, { content := "there", delay_seconds := 2 }]

/-- Concrete well-formed inbound frame from userA. -/
def frame0 : Frame :=
  { parsed := some [("sender", JsonVal.str "userA"), ("content", JsonVal.str "hello")] }

/-- Concrete frame failing JSON parsing. -/
def frameBad : Frame := { parsed := none }

/-- Concrete one-chunk plan. -/
def planHi : List Chunk := [{ content := "Hi", delay_seconds := 0 }]

/-- Concrete group conversation holding one user message. -/
def convU : Conv :=
  { participants := ["userA", "aiX"], conversation_type := "group",
    history := [{ role := "user", sender := some "alice", content := "hello" }],
    interrupted := false }

/-- Concrete conversations collection holding convU. -/
def dbU : Db := [(cid0, convU)]

/-- Concrete group environment: one AI participant, one user, a cache miss and
an untrimmed model reply. -/
def envG : GroupEnv :=
  { ais := [("aiX", { name := some "Zed", personality := none, details := none })],
    users := [("userA", { username := some "alice" })],
    ai := { cached := none, llm := some " Hello there " } }

/-- Frames the receive loop treats as malformed: JSON parse failure or Message
validation failure. -/
def parse_or_validation_fails (frame : Frame) : Prop :=
  frame.parsed = none ∨ ∃ obj, frame.parsed = some obj ∧ validateMessage obj = none

section HelperLemmas

lemma service_update_raises (db : Db) (cid : String) (h : List Entry) (i : Bool) :
    update_conversation_history_record db cid h i = (db, Except.error PyError.typeError) := rfl

lemma get_conversation_ok {db : Db} {cid : String} {c : Conv}
    (h : get_conversation db cid = Except.ok c) :
    isValidObjectId cid = true ∧ findConv db cid = some c := by
  unfold get_conversation get_conversation_by_id at h
  by_cases hv : isValidObjectId cid
  · simp only [hv, if_true] at h
    cases hf : findConv db cid with
    | none => rw [hf] at h; exact absurd h (by simp)
    | some a =>
      rw [hf] at h
      simp only [Except.ok.injEq] at h
      exact ⟨hv, congrArg some h⟩
  · simp [hv] at h

lemma findConv_cons (p : String × Conv) (rest : Db) (i : String) :
    findConv (p :: rest) i = if p.1 = i then some p.2 else findConv rest i := by
  by_cases h : p.1 = i
  · simp [findConv, List.find?_cons_of_pos, h]
  · simp [findConv, List.find?_cons_of_neg, h]

lemma setConv_cons (p : String × Conv) (rest : Db) (cid : String) (c' : Conv) :
    setConv (p :: rest) cid c' =
      (if p.1 = cid then (cid, c') else p) :: setConv rest cid c' := by
  by_cases h : p.1 = cid <;> simp [setConv, h]

lemma findConv_set (db : Db) (cid : String) (c' : Conv) (i : String) :
    findConv (setConv db cid c') i =
      if i = cid then (findConv db cid).map (fun _ => c') else findConv db i := by
  induction db with
  | nil => by_cases h : i = cid <;> simp [findConv, setConv, h]
  | cons p rest ih =>
    simp only [setConv_cons, findConv_cons]
    by_cases h1 : p.1 = cid
    · by_cases h2 : i = cid
      · subst h2
        simp [h1]
      · have hci : ¬(cid = i) := fun hc => h2 hc.symm
        have hpi : ¬(p.1 = i) := by rw [h1]; exact hci
        simp [h1, h2, hci, hpi, ih]
    · by_cases h2 : i = cid
      · subst h2
        simp [h1, ih]
      · by_cases h3 : p.1 = i
        · simp [h1, h2, h3]
        · simp [h1, h2, h3, ih]

lemma findConv_set_self {db : Db} {cid : String} {c : Conv} (c' : Conv)
    (h : findConv db cid = some c) :
    findConv (setConv db cid c') cid = some c' := by
  simp [findConv_set, h]

lemma findConv_set_other {db : Db} {cid : String} (c' : Conv) {i : String}
    (h : ¬(i = cid)) :
    findConv (setConv db cid c') i = findConv db i := by
  simp [findConv_set, h]

lemma update_sync_appends {db : Db} {cid : String} {c : Conv} {h : List Entry}
    (hv : isValidObjectId cid = true) (hf : findConv db cid = some c)
    (hne : ¬(h = c.history)) :
    update_sync_conversation_history db cid h none =
      (setConv db cid { c with history := h }, some { c with history := h }) := by
  have hcc : ¬(({ c with history := h } : Conv) = c) := by
    cases c with
    | mk participants ctype hist int =>
      simp only [Conv.mk.injEq]
      intro hx
      exact absurd hx.2.2.1 hne
  unfold update_sync_conversation_history
  rw [hv]
  simp only [if_true, hf, Option.getD_none]
  rw [if_neg hcc]
  have hset := findConv_set_self ({ c with history := h }) hf
  rw [hset]

lemma update_sync_flag_preserved (db : Db) (cid : String) (h : List Entry) (i : String) :
    (findConv (update_sync_conversation_history db cid h none).1 i).map Conv.interrupted
      = (findConv db i).map Conv.interrupted := by
  unfold update_sync_conversation_history
  by_cases hv : isValidObjectId cid
  · rw [hv]
    simp only [if_true, Option.getD_none]
    cases hf : findConv db cid with
    | none => rfl
    | some c =>
      dsimp only
      by_cases hcc : ({ c with history := h } : Conv) = c
      · simp [hcc]
      · rw [if_neg hcc]
        by_cases hi : i = cid
        · subst hi
          rw [findConv_set_self _ hf, hf]
          rfl
        · rw [findConv_set_other _ hi]
  · simp [hv]

lemma deliver_appends (chunks : List Chunk) :
    ∀ (db : Db) (cid : String) (c : Conv),
      isValidObjectId cid = true → findConv db cid = some c → c.interrupted = false →
      (∀ ch ∈ chunks, 0 ≤ ch.delay_seconds) →
      findConv (deliver_chunks_task db cid chunks).1 cid =
          some { c with history :=
            c.history ++ chunks.map (fun ch => assistantEntry ch.content) } ∧
        (deliver_chunks_task db cid chunks).2.2 = Except.ok () := by
  induction chunks with
  | nil =>
    intro db cid c hv hf hint hd
    refine ⟨?_, rfl⟩
    simpa [deliver_chunks_task] using hf
  | cons ch rest ih =>
    intro db cid c hv hf hint hd
    have hd0 : ¬(ch.delay_seconds < 0) :=
      not_lt.mpr (hd ch (List.mem_cons_self ch rest))
    have hg : get_sync_conversation_by_id db cid = some c := by
      unfold get_sync_conversation_by_id
      rw [hv]
      simpa using hf
    have hne : ¬(c.history ++ [assistantEntry ch.content] = c.history) := by
      intro hx
      simpa using congrArg List.length hx
    unfold deliver_chunks_task
    rw [if_neg hd0, hg]
    simp only [hint, if_false, Bool.false_eq_true]
    rw [update_sync_appends hv hf hne]
    have hint' : ({ c with history := c.history ++ [assistantEntry ch.content] } : Conv).interrupted = false := hint
    have hrec := ih (setConv db cid { c with history := c.history ++ [assistantEntry ch.content] })
      cid { c with history := c.history ++ [assistantEntry ch.content] } hv
      (findConv_set_self _ hf) hint'
      (fun x hx => hd x (List.mem_cons_of_mem ch hx))
    constructor
    · show findConv (deliver_chunks_task
          (setConv db cid { c with history := c.history ++ [assistantEntry ch.content] })
          cid rest).1 cid = _
      rw [hrec.1]
      simp [List.append_assoc, hint]
    · exact hrec.2

lemma deliver_no_publish (chunks : List Chunk) :
    ∀ (db : Db) (cid : String), (deliver_chunks_task db cid chunks).2.1 = [] := by
  induction chunks with
  | nil => intro db cid; rfl
  | cons ch rest ih =>
    intro db cid
    unfold deliver_chunks_task
    split
    · rfl
    · split
      · rfl
      · split
        · rfl
        · split
          · rfl
          · exact ih _ _

lemma deliver_flag_preserved (chunks : List Chunk) :
    ∀ (db : Db) (cid : String) (i : String),
      (findConv (deliver_chunks_task db cid chunks).1 i).map Conv.interrupted
        = (findConv db i).map Conv.interrupted := by
  induction chunks with
  | nil => intro db cid i; rfl
  | cons ch rest ih =>
    intro db cid i
    unfold deliver_chunks_task
    split
    · rfl
    · split
      · rfl
      · split
        · rfl
        · split
          · next db' heq =>
            have : db' = (update_sync_conversation_history db cid _ none).1 :=
              (congrArg Prod.fst heq).symm
            rw [this]
            exact update_sync_flag_preserved _ _ _ _
          · next db' x heq =>
            rw [ih db' cid i]
            have : db' = (update_sync_conversation_history db cid _ none).1 :=
              (congrArg Prod.fst heq).symm
            rw [this]
            exact update_sync_flag_preserved _ _ _ _

lemma ws_step_db_unchanged (db : Db) (cid : String) (frame : Frame) :
    (websocket_receive_step db cid frame).2.2 = db := by
  unfold websocket_receive_step
  cases hp : frame.parsed with
  | none => rfl
  | some obj =>
    dsimp only
    cases hv : validateMessage obj with
    | none => rfl
    | some msg =>
      dsimp only
      cases hg : get_conversation db cid with
      | error e => rfl
      | ok conv =>
        dsimp only
        rw [service_update_raises]

lemma ws_step_no_spawn_deliver (db : Db) (cid : String) (frame : Frame) :
    ((websocket_receive_step db cid frame).1.all
      (fun e => match e with
        | Effect.spawnDeliverChunks _ => false
        | _ => true)) = true := by
  unfold websocket_receive_step
  cases hp : frame.parsed with
  | none => rfl
  | some obj =>
    dsimp only
    cases hv : validateMessage obj with
    | none => rfl
    | some msg =>
      dsimp only
      cases hg : get_conversation db cid with
      | error e => rfl
      | ok conv =>
        dsimp only
        rw [service_update_raises]
        rfl

lemma ws_step_malformed {db : Db} {cid : String} {frame : Frame}
    (h : frame.parsed = none ∨
      ∃ obj, frame.parsed = some obj ∧ validateMessage obj = none) :
    ∃ t, websocket_receive_step db cid frame =
      ([Effect.sendText t], StepExit.continueLoop, db) := by
  rcases h with hn | ⟨obj, hobj, hval⟩
  · refine ⟨"Invalid message format. Please send JSON.", ?_⟩
    unfold websocket_receive_step
    rw [hn]
  · refine ⟨"Error in message data", ?_⟩
    unfold websocket_receive_step
    rw [hobj]
    dsimp only
    rw [hval]

lemma deliver_flags_stops (chunks : List Chunk) :
    ∀ (flags : Nat → Bool) (hist : List Entry) (s k : Nat),
      1 ≤ k → k ≤ chunks.length →
      (∀ ch ∈ chunks, 0 ≤ ch.delay_seconds) →
      (∀ j, j + 1 < k → flags (s + j) = false) →
      flags (s + (k - 1)) = true →
      deliver_chunks_flags flags hist chunks s =
        hist ++ (chunks.take (k - 1)).map (fun ch => assistantEntry ch.content) := by
  induction chunks with
  | nil =>
    intro flags hist s k h1 h2 _ _ _
    exact absurd (le_trans h1 h2) (by simp)
  | cons ch rest ih =>
    intro flags hist s k h1 h2 hd hfalse htrue
    have hd0 : ¬(ch.delay_seconds < 0) :=
      not_lt.mpr (hd ch (List.mem_cons_self ch rest))
    unfold deliver_chunks_flags
    rw [if_neg hd0]
    by_cases hk : k = 1
    · subst hk
      have hs : flags s = true := by simpa using htrue
      rw [hs]
      simp
    · have hk2 : 2 ≤ k := by omega
      have hf0 : flags s = false := by simpa using hfalse 0 (by omega)
      rw [hf0]
      simp only [if_false, Bool.false_eq_true]
      have hfalse' : ∀ j, j + 1 < k - 1 → flags (s + 1 + j) = false := by
        intro j hj
        have heq : s + 1 + j = s + (j + 1) := by omega
        rw [heq]
        exact hfalse (j + 1) (by omega)
      have htrue' : flags (s + 1 + (k - 1 - 1)) = true := by
        have heq : s + 1 + (k - 1 - 1) = s + (k - 1) := by omega
        rw [heq]
        exact htrue
      have h2' : k ≤ rest.length + 1 := by simpa using h2
      have hrec := ih flags (hist ++ [assistantEntry ch.content]) (s + 1) (k - 1)
        (by omega) (by omega)
        (fun x hx => hd x (List.mem_cons_of_mem ch hx)) hfalse' htrue'
      rw [hrec]
      have htake : (ch :: rest).take (k - 1) = ch :: rest.take (k - 1 - 1) := by
        have heq : k - 1 = (k - 1 - 1) + 1 := by omega
        rw [heq]
        rfl
      rw [htake]
      simp [List.append_assoc]

lemma get_ai_response_ok {env : AiEnv} {p : String} {hist : List Entry}
    {r : String} {h2 : List Entry}
    (h : get_ai_response env p hist = Except.ok (r, h2)) :
    h2 ++ [assistantEntry r] = hist ++
      (match env.cached with
       | some rc => [assistantEntry rc]
       | none => [assistantEntry (pyStrip (env.llm.getD "")),
                  assistantEntry (pyStrip (env.llm.getD ""))]) := by
  unfold get_ai_response at h
  by_cases hb : (pyStrip p == "") = true
  · rw [if_pos hb] at h
    exact absurd h (by simp)
  · rw [if_neg hb] at h
    cases hc : env.cached with
    | some rc =>
      rw [hc] at h
      simp only [Except.ok.injEq, Prod.mk.injEq] at h
      rw [h.1, h.2]
    | none =>
      rw [hc] at h
      cases hl : env.llm with
      | none =>
        rw [hl] at h
        exact absurd h (by simp)
      | some raw =>
        rw [hl] at h
        simp only [Except.ok.injEq, Prod.mk.injEq] at h
        obtain ⟨h1, h2eq⟩ := h
        subst h1
        subst h2eq
        simp [List.append_assoc, Option.getD_some]

lemma automate_persist_shape (db : Db) (env : GroupEnv) (cid : String) (h : List Entry)
    (hp : (automate_group_ai_response db env cid).persistHistory = some h) :
    ∃ conv, findConv db cid = some conv ∧
      h = pre_call_history env conv ++
        (match env.ai.cached with
         | some rc => [assistantEntry rc]
         | none => [assistantEntry (pyStrip (env.ai.llm.getD "")),
                    assistantEntry (pyStrip (env.ai.llm.getD ""))]) := by
  unfold automate_group_ai_response at hp
  cases hg : get_conversation db cid with
  | error e =>
    rw [hg] at hp
    exact absurd hp (by simp)
  | ok conversation =>
    rw [hg] at hp
    dsimp only at hp
    by_cases ht : (conversation.conversation_type != "group") = true
    · rw [if_pos ht] at hp
      exact absurd hp (by simp)
    · rw [if_neg ht] at hp
      cases hl : lastUserEntry (pre_call_history env conversation) with
      | none =>
        rw [hl] at hp
        exact absurd hp (by simp)
      | some lastMsg =>
        rw [hl] at hp
        dsimp only at hp
        by_cases hlm : (pyStrip lastMsg.content == "") = true
        · rw [if_pos hlm] at hp
          exact absurd hp (by simp)
        · rw [if_neg hlm] at hp
          cases hai : findAiParticipant env conversation.participants with
          | none =>
            rw [hai] at hp
            exact absurd hp (by simp)
          | some ai_id =>
            rw [hai] at hp
            dsimp only at hp
            cases hresp : get_ai_response env.ai (ai_input_of env ai_id lastMsg)
                (pre_call_history env conversation) with
            | error e =>
              rw [hresp] at hp
              exact absurd hp (by simp)
            | ok pr =>
              rw [hresp] at hp
              obtain ⟨r, h2⟩ := pr
              dsimp only at hp
              rw [service_update_raises] at hp
              dsimp only at hp
              simp only [Option.some.injEq] at hp
              refine ⟨conversation, (get_conversation_ok hg).2, ?_⟩
              rw [← hp]
              exact get_ai_response_ok hresp

end HelperLemmas

/-- Claim C1: the spec's setConversationHistory — realized by the service-level
update_conversation_history_record — is claimed to accept an optional
interrupted argument, write the given history, and return the updated document
without raising, for all its callers. The code contradicts this: the service
forwards three positional arguments to a repository function declared with two
parameters, so every call (from the websocket loop, the group AI responder, and
the HTTP AI-chat endpoint alike) raises TypeError and writes nothing. -/
theorem service_history_update_always_raises :
    ∀ (db : Db) (conversation_id : String) (history : List Entry) (interrupted : Bool),
      update_conversation_history_record db conversation_id history interrupted =
        (db, Except.error PyError.typeError) :=
  fun _ _ _ _ => rfl

/-- Claim C2 counterexample: the claim says some inbound message makes the
request path invoke deliver_chunks_task; in fact no conversation state and no
inbound frame makes the websocket receive loop emit a chunk-delivery
invocation — the scheduler has no caller in the message-processing flow. -/
theorem no_scheduler_invocation_from_request_path :
    ¬ ∃ (db : Db) (cid : String) (frame : Frame) (chat_id : String),
      Effect.spawnDeliverChunks chat_id ∈ (websocket_receive_step db cid frame).1 := by
  rintro ⟨db, cid, frame, chat_id, hmem⟩
  have hall := ws_step_no_spawn_deliver db cid frame
  rw [List.all_eq_true] at hall
  simpa using hall _ hmem

/-- Claim C2 amended: the websocket message-processing flow never invokes
deliver_chunks_task; every effect of a receive-loop iteration is something
other than a chunk-delivery invocation. -/
theorem request_path_spawns_no_chunk_delivery :
    ∀ (db : Db) (cid : String) (frame : Frame),
      ((websocket_receive_step db cid frame).1.all
        (fun e => match e with
          | Effect.spawnDeliverChunks _ => false
          | _ => true)) = true :=
  ws_step_no_spawn_deliver

/-- Claim C3: for every chunk plan with non-negative delays, when the
conversation stays present with its interrupted flag false and every write
succeeds (which holds when the scheduler is the only writer), deliver_chunks_task
appends exactly one assistant entry per chunk, in plan order, and finishes
normally. -/
theorem deliver_chunks_appends_all_in_order :
    ∀ (db : Db) (cid : String) (c : Conv) (plan : List Chunk),
      isValidObjectId cid = true → findConv db cid = some c → c.interrupted = false →
      (∀ ch ∈ plan, 0 ≤ ch.delay_seconds) →
      findConv (deliver_chunks_task db cid plan).1 cid =
          some { c with history :=
            c.history ++ plan.map (fun ch => assistantEntry ch.content) } ∧
        (deliver_chunks_task db cid plan).2.2 = Except.ok () :=
  fun db cid c plan hv hf hint hd => deliver_appends plan db cid c hv hf hint hd

/-- Claim C3 witness: the two-chunk plan of the spec's example appended in full. -/
theorem deliver_chunks_appends_all_in_order_witness :
    isValidObjectId cid0 = true ∧ findConv db0 cid0 = some conv0 ∧
      conv0.interrupted = false ∧ (∀ ch ∈ plan0, 0 ≤ ch.delay_seconds) ∧
      findConv (deliver_chunks_task db0 cid0 plan0).1 cid0 =
        some { conv0 with history :=
          conv0.history ++ plan0.map (fun ch => assistantEntry ch.content) } :=
  ⟨by decide, by decide, by decide, by decide,
    (deliver_chunks_appends_all_in_order db0 cid0 conv0 plan0 (by decide) (by decide)
      (by decide) (by decide)).1⟩

/-- Claim C4: if the interrupted flag reads false at the re-fetches preceding
chunks 1..k-1 and true at the re-fetch preceding chunk k, the scheduler
delivers exactly chunks 1..k-1 — what it already appended remains and chunks
k..n are never appended. -/
theorem deliver_chunks_interrupted_stops (flags : Nat → Bool) (hist : List Entry)
    (plan : List Chunk) (k : Nat) (h1 : 1 ≤ k) (h2 : k ≤ plan.length)
    (hd : ∀ ch ∈ plan, 0 ≤ ch.delay_seconds)
    (hfalse : ∀ j, j + 1 < k → flags j = false) (htrue : flags (k - 1) = true) :
    deliver_chunks_flags flags hist plan 0 =
      hist ++ (plan.take (k - 1)).map (fun ch => assistantEntry ch.content) :=
  deliver_flags_stops plan flags hist 0 k h1 h2 hd
    (fun j hj => by simpa using hfalse j hj) (by simpa using htrue)

/-- Claim C4 witness: with the flag raised before the second chunk of the
two-chunk plan, only the first chunk is delivered. -/
theorem deliver_chunks_interrupted_stops_witness :
    (∀ j, j + 1 < 2 → (fun i => decide (1 ≤ i)) j = false) ∧
      (fun i => decide (1 ≤ i)) (2 - 1) = true ∧
      deliver_chunks_flags (fun i => decide (1 ≤ i)) [] plan0 0 =
        [] ++ (plan0.take (2 - 1)).map (fun ch => assistantEntry ch.content) := by
  refine ⟨?_, rfl, ?_⟩
  · intro j hj
    have hj0 : j = 0 := by omega
    subst hj0
    rfl
  · exact deliver_chunks_interrupted_stops (fun i => decide (1 ≤ i)) [] plan0 2
      (by decide) (by decide) (by decide)
      (fun j hj => by
        have hj0 : j = 0 := by omega
        subst hj0
        rfl) rfl

/-- Claim C5 counterexample: on the spec's example plan the scheduler appends
the assistant entries to the persisted history but performs no bus publication
at all — deliver_chunks_task contains no publish_message call, so the delivered
chunk is not re-published as the claim states. -/
theorem scheduler_append_without_publish_concrete :
    (deliver_chunks_task db0 cid0 plan0).2.1 = [] ∧
      findConv (deliver_chunks_task db0 cid0 plan0).1 cid0 =
        some { conv0 with history := [assistantEntry "Hi", assistantEntry "there"] } := by
  decide

/-- Claim C5 amended: for every chunk deliver_chunks_task delivers it appends an
assistant entry with the chunk's text to the persisted history, but it never
publishes anything to the Broadcast Bus. -/
theorem deliver_chunks_appends_but_never_publishes :
    ∀ (db : Db) (cid : String) (c : Conv) (plan : List Chunk),
      isValidObjectId cid = true → findConv db cid = some c → c.interrupted = false →
      (∀ ch ∈ plan, 0 ≤ ch.delay_seconds) →
      (deliver_chunks_task db cid plan).2.1 = [] ∧
        findConv (deliver_chunks_task db cid plan).1 cid =
          some { c with history :=
            c.history ++ plan.map (fun ch => assistantEntry ch.content) } :=
  fun db cid c plan hv hf hint hd =>
    ⟨deliver_no_publish plan db cid, (deliver_appends plan db cid c hv hf hint hd).1⟩

/-- Claim C5 amended witness: one chunk delivered, history extended, no publish. -/
theorem deliver_chunks_appends_but_never_publishes_witness :
    isValidObjectId cid0 = true ∧ findConv db0 cid0 = some conv0 ∧
      (deliver_chunks_task db0 cid0 planHi).2.1 = [] ∧
      findConv (deliver_chunks_task db0 cid0 planHi).1 cid0 =
        some { conv0 with history :=
          conv0.history ++ planHi.map (fun ch => assistantEntry ch.content) } :=
  ⟨by decide, by decide,
    (deliver_chunks_appends_but_never_publishes db0 cid0 conv0 planHi (by decide)
      (by decide) (by decide) (by decide)).1,
    (deliver_chunks_appends_but_never_publishes db0 cid0 conv0 planHi (by decide)
      (by decide) (by decide) (by decide)).2⟩

/-- Claim C6 counterexample: processing a new inbound user message on a
conversation whose flag is false leaves the conversations store byte-for-byte
unchanged — the request path persists neither interrupted = true nor anything
else, because its history write raises TypeError first. -/
theorem request_path_never_sets_interrupted_concrete :
    (websocket_receive_step db0 cid0 frame0).2.2 = db0 ∧
      (findConv db0 cid0).map Conv.interrupted = some false ∧
      (websocket_receive_step db0 cid0 frame0).2.1 = StepExit.raised PyError.typeError := by
  decide

/-- Claim C6 amended: no component writes the interrupted flag at all — the
websocket request path never modifies the conversations store, and the
scheduler's own writes leave every conversation's flag as it was. -/
theorem no_embedded_writer_of_interrupted_flag :
    (∀ (db : Db) (cid : String) (frame : Frame),
        (websocket_receive_step db cid frame).2.2 = db) ∧
      ∀ (db : Db) (cid : String) (plan : List Chunk) (i : String),
        (findConv (deliver_chunks_task db cid plan).1 i).map Conv.interrupted =
          (findConv db i).map Conv.interrupted :=
  ⟨ws_step_db_unchanged, fun db cid plan i => deliver_flag_preserved plan db cid i⟩

/-- Claim C7: on a group conversation a user message is claimed to trigger
exactly one group-AI generation and one appended assistant entry. In the code
the receive loop raises TypeError at the history persist before either trigger
block runs: no generation task is spawned and the store is unchanged. -/
theorem group_trigger_preempted_by_typeerror :
    (websocket_receive_step db0 cid0 frame0).2.1 = StepExit.raised PyError.typeError ∧
      ((websocket_receive_step db0 cid0 frame0).1.all
        (fun e => match e with
          | Effect.spawnGroupAiResponse _ => false
          | _ => true)) = true ∧
      (websocket_receive_step db0 cid0 frame0).2.2 = db0 := by
  decide

/-- Claim C8: a frame that fails JSON parsing or Message validation produces
only a diagnostic text on the same connection, persists nothing, publishes
nothing, leaves the store untouched, keeps the loop running, and leaves the
registry and listener untouched. -/
theorem malformed_frame_diagnostic_only :
    ∀ (db : Db) (cid : String) (registry : List String) (self : String) (frame : Frame),
      parse_or_validation_fails frame →
      (∃ t, (websocket_receive_step db cid frame).1 = [Effect.sendText t]) ∧
        (websocket_receive_step db cid frame).2.1 = StepExit.continueLoop ∧
        (websocket_receive_step db cid frame).2.2 = db ∧
        sessionAfterFrame db cid registry self frame =
          { registry := registry, listenerCancelled := false } := by
  intro db cid registry self frame h
  obtain ⟨t, hstep⟩ := @ws_step_malformed db cid frame h
  refine ⟨⟨t, by rw [hstep]⟩, by rw [hstep], by rw [hstep], ?_⟩
  unfold sessionAfterFrame
  rw [hstep]

/-- Claim C8 witness: a parse-failing frame handled diagnostically. -/
theorem malformed_frame_diagnostic_only_witness :
    parse_or_validation_fails frameBad ∧
      (websocket_receive_step db0 cid0 frameBad).2.1 = StepExit.continueLoop ∧
      (websocket_receive_step db0 cid0 frameBad).2.2 = db0 ∧
      sessionAfterFrame db0 cid0 ["connA"] "connA" frameBad =
        { registry := ["connA"], listenerCancelled := false } :=
  ⟨Or.inl rfl,
    (malformed_frame_diagnostic_only db0 cid0 ["connA"] "connA" frameBad (Or.inl rfl)).2.1,
    (malformed_frame_diagnostic_only db0 cid0 ["connA"] "connA" frameBad (Or.inl rfl)).2.2.1,
    (malformed_frame_diagnostic_only db0 cid0 ["connA"] "connA" frameBad (Or.inl rfl)).2.2.2⟩

/-- Claim C9 counterexample: when a receive-loop iteration raises (here the
TypeError every valid frame produces), the session handler cancels the listener
but does not remove the connection from the registry — the cleanup is not
performed on every exit path as claimed. -/
theorem error_exit_leaves_connection_registered :
    (websocket_receive_step db0 cid0 frame0).2.1 = StepExit.raised PyError.typeError ∧
      sessionAfterFrame db0 cid0 ["connA"] "connA" frame0 =
        { registry := ["connA"], listenerCancelled := true } := by
  decide

/-- Claim C9 amended: the bridge/listener task is cancelled on every exit path,
but the registry removal happens only on the WebSocketDisconnect path; any
other error escaping the loop leaves the connection registered. -/
theorem cleanup_cancels_listener_but_removes_only_on_disconnect :
    ∀ (registry : List String) (self : String),
      sessionCleanup registry self LoopResult.disconnected =
          { registry := removeFirst registry self, listenerCancelled := true } ∧
        ∀ e, sessionCleanup registry self (LoopResult.errored e) =
          { registry := registry, listenerCancelled := true } :=
  fun _ _ => ⟨rfl, fun _ => rfl⟩

/-- Claim C10: whenever automate_group_ai_response reaches its persistence call,
the history it passes ends, on a cache miss, with two identical assistant
entries for the single turn (get_ai_response already appended the entry and the
caller appends it again), and on a cache hit with exactly one. -/
theorem group_ai_reply_double_persisted :
    ∀ (db : Db) (env : GroupEnv) (cid : String) (h : List Entry),
      (automate_group_ai_response db env cid).persistHistory = some h →
      ∃ conv, findConv db cid = some conv ∧
        h = pre_call_history env conv ++
          (match env.ai.cached with
           | some rc => [assistantEntry rc]
           | none => [assistantEntry (pyStrip (env.ai.llm.getD "")),
                      assistantEntry (pyStrip (env.ai.llm.getD ""))]) :=
  fun db env cid h hp => automate_persist_shape db env cid h hp

/-- Claim C10 witness: a fresh (non-cached) group reply persisted with the
assistant entry duplicated. -/
theorem group_ai_reply_double_persisted_witness :
    (automate_group_ai_response dbU envG cid0).persistHistory =
        some (pre_call_history envG convU ++
          [assistantEntry "Hello there", assistantEntry "Hello there"]) ∧
      ∃ conv, findConv dbU cid0 = some conv ∧
        pre_call_history envG convU ++
            [assistantEntry "Hello there", assistantEntry "Hello there"] =
          pre_call_history envG conv ++
            (match envG.ai.cached with
             | some rc => [assistantEntry rc]
             | none => [assistantEntry (pyStrip (envG.ai.llm.getD "")),
                        assistantEntry (pyStrip (envG.ai.llm.getD ""))]) :=
  ⟨by decide, group_ai_reply_double_persisted dbU envG cid0 _ (by decide)⟩

end Zance
